import Mathlib

/-!
Verification of the structured-chapter document core of the moltpad CLI
(`skills/moltpad/tools/moltpad_cli.py`): segment validation, markup
rendering, cache previews and freshness, stale-chapter-id resolution, and
order-index assignment.  Python values coming from `json.loads` are
modelled by the inductive `Moltpad.JVal`; Python strings are modelled by
Lean `String` with character-list based helpers mirroring `strip`,
`lower`, `replace`, slicing and substring containment.  Machine-level
details that the source never relies on (float literals, non-UTF-8 data)
are outside the model.
-/

set_option maxRecDepth 4000

namespace Moltpad

/-! ## Python string primitives -/

/-- Python `str.strip()` on a character list: drop leading and trailing
whitespace. -/
def stripChars (l : List Char) : List Char :=
  ((l.dropWhile Char.isWhitespace).reverse.dropWhile Char.isWhitespace).reverse

/-- Python `str.strip()`. -/
def pyStrip (s : String) : String :=
  String.mk (stripChars s.data)

/-- Python `str.lower()` (character-wise; the source only lowercases ASCII). -/
def pyLower (s : String) : String :=
  String.mk (s.data.map Char.toLower)

/-- Python `s.replace("\n", " ")`: a character-wise substitution. -/
def pyCollapseNewlines (s : String) : String :=
  String.mk (s.data.map fun c => if c = '\n' then ' ' else c)

/-- Python slicing `s[:n]` (by code point, as Python does). -/
def pyTakeChars (n : Nat) (s : String) : String :=
  String.mk (s.data.take n)

/-- Python `len(s)` (code points). -/
def pyLen (s : String) : Nat :=
  s.data.length

/-- Is the first list a prefix of the second? -/
def isPrefixList : List Char → List Char → Bool
  | [], _ => true
  | _ :: _, [] => false
  | c :: cs, d :: ds => c = d && isPrefixList cs ds

/-- Does `l` contain `sep` as a contiguous sublist? -/
def containsList (sep : List Char) : List Char → Bool
  | [] => isPrefixList sep []
  | c :: cs => isPrefixList sep (c :: cs) || containsList sep cs

/-- Python `sub in s`: substring containment (the empty string is contained
in everything). -/
def strContains (s sub : String) : Bool :=
  containsList sub.data s.data

/-- Python `s.startswith(pre)`. -/
def pyStartsWith (s pre : String) : Bool :=
  isPrefixList pre.data s.data

/-- Worker for `pySplit`: fuel-driven scan for non-overlapping separator
occurrences, left to right, keeping empty pieces (Python `str.split` with
an explicit separator).  The fuel only bounds the recursion; each step
consumes at least one character, so `l.length` fuel never runs out. -/
def splitListAux (sep : List Char) : Nat → List Char → List Char → List (List Char)
  | _, acc, [] => [acc.reverse]
  | 0, acc, rest => [acc.reverse ++ rest]
  | fuel + 1, acc, c :: cs =>
    if isPrefixList sep (c :: cs) then
      acc.reverse :: splitListAux sep fuel [] (List.drop sep.length (c :: cs))
    else
      splitListAux sep fuel (c :: acc) cs

/-- Python `s.split(sep)` for a non-empty separator. -/
def pySplit (sep s : String) : List String :=
  if sep.data.isEmpty then [s]
  else (splitListAux sep.data s.data.length [] s.data).map String.mk

/-- Code-point lexicographic comparison on character lists, as Python `<`
on strings. -/
def charListLt : List Char → List Char → Bool
  | [], [] => false
  | [], _ :: _ => true
  | _ :: _, [] => false
  | c :: cs, d :: ds => if c < d then true else if d < c then false else charListLt cs ds

/-- Python `<` on strings. -/
def strLt (a b : String) : Bool :=
  charListLt a.data b.data

/-- Insert into an ascending list, keeping equal elements in order. -/
def insertAsc (x : String) : List String → List String
  | [] => [x]
  | y :: ys => if strLt y x then y :: insertAsc x ys else x :: y :: ys

/-- Python `sorted` on a list of strings (ascending by code point). -/
def sortStrings (l : List String) : List String :=
  l.foldr insertAsc []

/-- Python `s.split("\n")`. -/
def pySplitLines (s : String) : List String :=
  pySplit "\n" s

/-! ## JSON values (the shapes `json.loads` produces)

Floating-point literals are not modelled; none of the verified code paths
distinguish them from other non-string scalars. -/

/-- A JSON value as produced by Python's `json.loads`.  Objects are
association lists; `json.loads` keeps the last duplicate key, which the
lookup below mirrors. -/
inductive JVal where
  | null
  | bool (b : Bool)
  | num (n : Int)
  | str (s : String)
  | arr (elems : List JVal)
  | obj (fields : List (String × JVal))

/-- Dict lookup: last binding wins, as in a dict built by `json.loads`. -/
def jGet (fields : List (String × JVal)) (k : String) : Option JVal :=
  fields.foldl (fun acc kv => if kv.1 = k then some kv.2 else acc) none

/-- Python `d.get(k, default)`. -/
def pyGetD (fields : List (String × JVal)) (k : String) (d : JVal) : JVal :=
  (jGet fields k).getD d

/-- Python `k in d` (key containment). -/
def jHas (fields : List (String × JVal)) (k : String) : Bool :=
  (jGet fields k).isSome

/-- Python `type(v).__name__` for JSON-shaped values. -/
def typeName : JVal → String
  | .null => "NoneType"
  | .bool _ => "bool"
  | .num _ => "int"
  | .str _ => "str"
  | .arr _ => "list"
  | .obj _ => "dict"

/-- Python `str(v)` for hashable scalar values.  Arrays and objects never
reach a formatting site in the verified paths: they are unhashable and the
set-membership test raises before any f-string uses them. -/
def pyScalarStr : JVal → String
  | .null => "None"
  | .bool b => if b then "True" else "False"
  | .num n => toString n
  | .str s => s
  | .arr _ => ""
  | .obj _ => ""

/-- Python truthiness of a JSON value. -/
def pyTruthy : JVal → Bool
  | .null => false
  | .bool b => b
  | .num n => n != 0
  | .str s => s != ""
  | .arr l => !l.isEmpty
  | .obj l => !l.isEmpty

/-! ## Segment validator (`_validate_chapter_json`) -/

/-- The set `VALID_SEGMENT_TYPES` from the source (a `set` literal; order here is
the literal's order, sorting happens at the use site). -/
def VALID_SEGMENT_TYPES : List String :=
  ["text", "dialogue", "monolog", "whisper", "shout",
   "emphasis", "center", "right", "scene_break", "heading"]

/-- The set `NARRATIVE_TYPES` from the source. -/
def NARRATIVE_TYPES : List String :=
  ["dialogue", "monolog", "whisper", "shout"]

/-- The list `_RAW_TAGS` from the source, in the order the loop scans them. -/
def RAW_TAGS : List String :=
  ["thought", "whisper", "shout", "emphasis", "center", "right"]

/-- The dict `_TAG_TO_TYPE` from the source: dict access `_TAG_TO_TYPE[raw_tag]`,
always applied to a member of `RAW_TAGS`. -/
def TAG_TO_TYPE : List (String × String) :=
  [("thought", "monolog"), ("whisper", "whisper"), ("shout", "shout"),
   ("emphasis", "emphasis"), ("center", "center"), ("right", "right")]

/-- Lookup in `_TAG_TO_TYPE`; always applied to a key of the dict, so the
default is never used. -/
def tagToType (tg : String) : String :=
  ((TAG_TO_TYPE.find? (fun kv => kv.1 = tg)).map (fun kv => kv.2)).getD tg

/-- The `unknown type` message (f-string at source line 269-271). -/
def unknownTypeMsg (pre : String) (stype : JVal) : String :=
  pre ++ ": unknown type '" ++ pyScalarStr stype ++ "'. Valid: " ++
    String.intercalate ", " (sortStrings VALID_SEGMENT_TYPES)

/-- The raw-tag violation message (source lines 311-314). -/
def rawTagMsg (pre tg : String) : String :=
  pre ++ ": text contains raw '[" ++ tg ++ "]' tag. Use \x7b\"type\": \"" ++
    tagToType tg ++ "\"\x7d segment instead of putting tags in text."

/-- The dialogue-dash violation message (source lines 320-323). -/
def dashMsg (pre dash : String) : String :=
  pre ++ ": text starts with dialogue dash '" ++ dash ++
    "'. Use \x7b\"type\": \"dialogue\"\x7d segment instead."

/-- The title-duplication violation message (source lines 337-340). -/
def titleDupMsg : String :=
  "segments[0]: heading text duplicates the chapter title. Remove this segment — the title field is displayed automatically."

/-- Does `text.lower()` contain `[tg]` or `[/tg]`?  (source line 309) -/
def hasRawTag (textLower tg : String) : Bool :=
  strContains textLower ("[" ++ tg ++ "]") || strContains textLower ("[/" ++ tg ++ "]")

/-- The first raw tag found in the loop at source lines 308-315 (the loop
breaks after one violation). -/
def findRawTag (textLower : String) : Option String :=
  RAW_TAGS.find? (hasRawTag textLower)

/-- Checks for a segment whose `type` is a known kind (source lines
274-323).  `stype` is the kind string, `fields` the segment dict.  Errors
are returned in the order the source appends them: text checks, narrative
checks, raw-tag check, dash check. -/
def checkKnownSegment (pre stype : String) (fields : List (String × JVal)) : List String :=
  if stype = "scene_break" then
    -- scene_break must NOT have text (lines 275-280)
    (if jHas fields "text" then
      [pre ++ ": 'scene_break' must not have a 'text' field"] else []) ++
    (if jHas fields "narrative" then
      [pre ++ ": 'scene_break' does not support 'narrative' field"] else [])
  else
    -- all other types require text (lines 283-287)
    let text := pyGetD fields "text" .null
    let textErrs :=
      match text with
      | .null => [pre ++ ": '" ++ stype ++ "' requires a 'text' field"]
      | .str t => if pyStrip t = "" then
          [pre ++ ": 'text' must be a non-empty string"] else []
      | _ => [pre ++ ": 'text' must be a non-empty string"]
    -- narrative only on speech types (lines 290-299)
    let narrErrs :=
      if jHas fields "narrative" then
        if NARRATIVE_TYPES.contains stype then
          match jGet fields "narrative" with
          | some (.str n) => if pyStrip n = "" then
              [pre ++ ": 'narrative' must be a non-empty string"] else []
          | _ => [pre ++ ": 'narrative' must be a non-empty string"]
        else
          [pre ++ ": '" ++ stype ++ "' does not support 'narrative' field. Only " ++
            String.intercalate ", " (sortStrings NARRATIVE_TYPES) ++ " do."]
      else []
    -- raw tags in text fields; guarded by `isinstance(text, str) and text`
    -- (lines 302-323; the dash check sits inside the same guard)
    let tagErrs :=
      match text with
      | .str t =>
        if t ≠ "" then
          (match findRawTag (pyLower t) with
           | some tg => [rawTagMsg pre tg]
           | none => []) ++
          (if stype = "text" &&
              (pyStartsWith t "— " || pyStartsWith t "- ") then
            [dashMsg pre (if pyStartsWith t "—" then "—" else "-")]
          else [])
        else []
      | _ => []
    textErrs ++ narrErrs ++ tagErrs

/-- Per-segment validation (loop body, source lines 256-323).  The
membership test `stype not in VALID_SEGMENT_TYPES` hashes `stype`; an
unhashable value (list or dict) raises `TypeError`, modelled as
`Except.error`. -/
def validateSegment (i : Nat) (seg : JVal) : Except String (List String) :=
  let pre := "segments[" ++ toString i ++ "]"
  match seg with
  | .obj fields =>
    match pyGetD fields "type" .null with
    | .null => .ok [pre ++ ": missing required field 'type'"]
    | .arr _ => .error "unhashable type: 'list'"
    | .obj _ => .error "unhashable type: 'dict'"
    | .str s =>
      if VALID_SEGMENT_TYPES.contains s then .ok (checkKnownSegment pre s fields)
      else .ok [unknownTypeMsg pre (.str s)]
    | other => .ok [unknownTypeMsg pre other]
  | _ => .ok [pre ++ ": each segment must be an object"]

/-- Validation of the segment list with enumeration (source line 256). -/
def validateSegments (i : Nat) : List JVal → Except String (List String)
  | [] => .ok []
  | seg :: rest =>
    match validateSegment i seg with
    | .error e => .error e
    | .ok errs =>
      match validateSegments (i + 1) rest with
      | .error e => .error e
      | .ok more => .ok (errs ++ more)

/-- Title-duplication check (source lines 326-340): fires when the first
segment is a `heading` whose trimmed lower-cased text equals, or contains,
the trimmed lower-cased title. -/
def titleDupErrs (titleVal : JVal) (segs : List JVal) : List String :=
  match segs with
  | .obj f :: _ =>
    match pyGetD f "type" .null, pyGetD f "text" .null, titleVal with
    | .str s, .str ftext, .str t =>
      if s = "heading" ∧ pyStrip t ≠ "" then
        let firstText := pyLower (pyStrip ftext)
        let titleLower := pyLower (pyStrip t)
        if firstText = titleLower || strContains firstText titleLower then
          [titleDupMsg]
        else []
      else []
    | _, _, _ => []
  | _ => []

/-- Title checks (source lines 236-240): `data.get("title")`. -/
def titleErrs (titleVal : JVal) : List String :=
  match titleVal with
  | .null => ["Missing required field: 'title'"]
  | .str t => if pyStrip t = "" then ["'title' must be a non-empty string"] else []
  | _ => ["'title' must be a non-empty string"]

/-- The function `_validate_chapter_json` (source lines 228-342).  Returns the list of
violation strings, or `Except.error` when the Python code would raise
(`TypeError` on an unhashable segment `type`). -/
def pyValidateChapterJson (data : JVal) : Except String (List String) :=
  match data with
  | .obj fields =>
    let titleVal := pyGetD fields "title" .null
    let tErrs := titleErrs titleVal
    match pyGetD fields "segments" .null with
    | .null => .ok (tErrs ++ ["Missing required field: 'segments'"])
    | .arr segs =>
      if segs.isEmpty then .ok (tErrs ++ ["'segments' must not be empty"])
      else
        match validateSegments 0 segs with
        | .error e => .error e
        | .ok segErrs => .ok (tErrs ++ segErrs ++ titleDupErrs titleVal segs)
    | _ => .ok (tErrs ++ ["'segments' must be an array"])
  | nonObj => .ok ["Input must be a JSON object (dict), not " ++ typeName nonObj]

/-! ## Markup renderer (`_segments_to_markup`, source lines 345-387) -/

/-- One segment's rendered fragment.  `none` means the branch chain appends
nothing (an unknown `type` value; validated input never produces this).
A missing `type` key would raise `KeyError` in Python, but the renderer is
only invoked on documents that passed validation. -/
def segmentMarkup (fields : List (String × JVal)) : Option String :=
  let text := pyScalarStr (pyGetD fields "text" (.str ""))
  let narrVal := pyGetD fields "narrative" (.str "")
  let narrative := pyScalarStr narrVal
  match pyGetD fields "type" .null with
  | .str "text" => some text
  | .str "dialogue" =>
    some ((("— " ++ text) ++
      (if pyTruthy narrVal then " — " ++ narrative else "")))
  | .str "monolog" =>
    some (("[thought]" ++ text ++ "[/thought]") ++
      (if pyTruthy narrVal then " " ++ narrative else ""))
  | .str "whisper" =>
    some (("[whisper]" ++ text ++ "[/whisper]") ++
      (if pyTruthy narrVal then " " ++ narrative else ""))
  | .str "shout" =>
    some (("[shout]" ++ text ++ "[/shout]") ++
      (if pyTruthy narrVal then " " ++ narrative else ""))
  | .str "emphasis" => some ("[emphasis]" ++ text ++ "[/emphasis]")
  | .str "center" => some ("[center]" ++ text ++ "[/center]")
  | .str "right" => some ("[right]" ++ text ++ "[/right]")
  | .str "scene_break" => some "---"
  | .str "heading" => some ("### " ++ text)
  | _ => none

/-- The function `_segments_to_markup`: join the rendered fragments with blank lines.
Non-object segments never reach the renderer (validation rejects them). -/
def segmentsToMarkup (segs : List JVal) : String :=
  String.intercalate "\n\n"
    (segs.filterMap fun seg =>
      match seg with
      | .obj f => segmentMarkup f
      | _ => none)

/-! ## Cache previews and freshness (`cmd_read`, `_rebuild_book_cache`)

Remote chapters and book metadata are modelled by typed records following
the Remote Content Service schema (`ChapterSummary{id, title, content,
orderIndex}` and `BookMetadata`); the Python code reads them out of JSON
dicts with `.get` defaults, which the records make total.  `orderIndex` is
kept as a raw JSON value because `cmd_chapter_add` inspects its runtime
type. -/

/-- A chapter as returned by the Remote Content Service. -/
structure Chapter where
  id : String
  title : String
  content : String
  orderIndex : JVal

/-- Book metadata as extracted in `cmd_read` / `_rebuild_book_cache`:
`title`, `creator.name`, `publisher.name`, `category`, `description`. -/
structure Book where
  title : String
  author : String
  publisher : String
  category : String
  description : String

/-- The preview built for one chapter in a cache write (source lines
549-551 and 1349-1351, which are identical):
`ch_content[:200].replace("\n", " ").strip()`, with `"..."` appended when
`len(ch_content) > 200`. -/
def mkPreview (content : String) : String :=
  let preview := pyStrip (pyCollapseNewlines (pyTakeChars 200 content))
  if pyLen content > 200 then preview ++ "..." else preview

/-- One chapter list line of the cache file:
`f"- **{ch_title}** (id: {ch_id}): {preview}"`. -/
def chapterLine (ch : Chapter) : String :=
  "- **" ++ ch.title ++ "** (id: " ++ ch.id ++ "): " ++ mkPreview ch.content

/-- The cache file text built by `_rebuild_book_cache` (source lines
1328-1354); `cmd_read` builds the same text (lines 527-554). -/
def buildBookCache (bookId : String) (book : Book) (chapters : List Chapter)
    (now : String) : String :=
  String.intercalate "\n"
    (["# Book Summary: " ++ book.title,
      "**Book ID**: " ++ bookId,
      "**Author**: " ++ book.author,
      "**Publisher**: " ++ book.publisher] ++
     (if book.category ≠ "" then ["**Category**: " ++ book.category] else []) ++
     ["**Last Read**: " ++ now,
      "**Chapters**: " ++ toString chapters.length,
      ""] ++
     (if book.description ≠ "" then ["## Description", book.description, ""] else []) ++
     ["## Chapters"] ++
     chapters.map chapterLine)

/-- The staleness decision in `cmd_read` (source lines 482-495): the
`**Last Read**` timestamp is parsed (`none` models a parse failure, which
the `except` clause turns into a stale fall-through), and the entry is
served from cache iff `(now - read_dt).days < 7`.  Time is modelled in
seconds; Python's `timedelta.days` floors, hence `Int.fdiv _ 86400`. -/
def entryIsFresh (lastReadAt : Option Int) (now : Int) : Bool :=
  match lastReadAt with
  | none => false
  | some t => Int.fdiv (now - t) 86400 < 7

/-! ## Stale-chapter-id resolution (`cmd_chapter_read`, source lines
1204-1294) -/

/-- Step 1: scan the cached book files (in directory order) for the first
whose text contains the stale id as a substring (source lines 1211-1226). -/
def scanCache (cache : List (String × String)) (cid : String) :
    Option (String × String) :=
  cache.find? (fun f => strContains f.2 cid)

/-- Step 2: recover a title hint from the matching file's text (source
lines 1218-1225): every line containing the id and starting with `- **`
overwrites the hint with `line.split("**")[1]`; an `IndexError` is
swallowed.  The last such line wins (the loop has no break). -/
def extractHint (content cid : String) : Option String :=
  (pySplitLines content).foldl
    (fun acc line =>
      if strContains line cid && pyStartsWith line "- **" then
        match (pySplit "**" line).get? 1 with
        | some t => some t
        | none => acc
      else acc)
    none

/-- Step 5's comparison (source lines 1260-1262):
`ch.get("title", "").lower().strip() == target_title` with
`target_title = hint.lower().strip()`. -/
def titleMatches (hint : String) (ch : Chapter) : Bool :=
  pyStrip (pyLower ch.title) == pyStrip (pyLower hint)

/-- Terminal states of the resolution procedure. -/
inductive ResolveOutcome where
  /-- No cached book references the id (source lines 1287-1294). -/
  | unrecoverable
  /-- The relocated book no longer exists remotely (lines 1239-1242). -/
  | bookDeleted
  /-- The relocated book has an empty refreshed chapter list (lines
  1253-1255). -/
  | noChapters
  /-- Manual fallback: the current chapters are presented and a new
  explicit id is required (lines 1267-1276). -/
  | ambiguous (chapters : List Chapter)
  /-- A title match: the chapter's new id is adopted (lines 1278-1286). -/
  | found (newId : String) (chapter : Chapter)

/-- The outcome together with the cache effects performed on the way. -/
structure ResolveResult where
  outcome : ResolveOutcome
  /-- The cache file deleted in step 3 (lines 1233-1235). -/
  deleted : Option String
  /-- The cache file rewritten by `_rebuild_book_cache`, as (book id,
  text). -/
  written : Option (String × String)

/-- The stale-id resolution of `cmd_chapter_read` (source lines
1204-1294), as a function of the cache contents, the stale id, the Remote
Content Service responses, and the current timestamp string. -/
def resolveStaleId (cache : List (String × String)) (cid : String)
    (fetchBook : String → Option Book) (fetchChapters : String → List Chapter)
    (now : String) : ResolveResult :=
  match scanCache cache cid with
  | none => ⟨.unrecoverable, none, none⟩
  | some (stem, content) =>
    match fetchBook stem with
    | none => ⟨.bookDeleted, some stem, none⟩
    | some book =>
      let chapters := fetchChapters stem
      if chapters.isEmpty then ⟨.noChapters, some stem, none⟩
      else
        let hint? := extractHint content cid
        let matched :=
          match hint? with
          | some h => if h ≠ "" then chapters.find? (titleMatches h) else none
          | none => none
        match matched with
        | none =>
          ⟨.ambiguous chapters, some stem,
            some (stem, buildBookCache stem book chapters now)⟩
        | some ch =>
          ⟨.found ch.id ch, some stem,
            some (stem, buildBookCache stem book chapters now)⟩

/-! ## Order-index assignment (`cmd_chapter_add`, source lines 716-751) -/

/-- The helper `_order_value` (source lines 725-727): the `orderIndex` value if it is
an int, else `-1`.  Python `bool` is a subclass of `int`, so `True`/`False`
count as `1`/`0`. -/
def orderValue (ch : Chapter) : Int :=
  match ch.orderIndex with
  | .num n => n
  | .bool b => if b then 1 else 0
  | _ => -1

/-- Python `max(ch_list, key=_order_value)`: the first element with the
maximal key. -/
def pyMaxByOrderValue (c : Chapter) (rest : List Chapter) : Chapter :=
  rest.foldl (fun best ch => if orderValue best < orderValue ch then ch else best) c

/-- The `orderIndex` assigned to a new chapter (source lines 724-751):
`0` for an empty list, else
`max(_order_value(last_ch), len(ch_list) - 1) + 1`. -/
def newOrderIndex : List Chapter → Int
  | [] => 0
  | c :: rest =>
    max (orderValue (pyMaxByOrderValue c rest)) (((c :: rest).length : Int) - 1) + 1

/-! ## Shared document shapes used in the claims -/

/-- The document `{"title": "T", "segments": [{"type": k, "text": t}]}`. -/
def kindDoc (k t : String) : JVal :=
  .obj [("title", .str "T"),
        ("segments", .arr [.obj [("type", .str k), ("text", .str t)]])]

/-- Helper for optional dict fields. -/
def optField (k : String) : Option JVal → List (String × JVal)
  | some v => [(k, v)]
  | none => []

/-- A `scene_break` segment with optional `text` and `narrative` values. -/
def sceneDoc (tv nv : Option JVal) : JVal :=
  .obj [("title", .str "Ch1"),
        ("segments", .arr [.obj ([("type", JVal.str "scene_break")] ++
          optField "text" tv ++ optField "narrative" nv)])]

/-! ## Claim C1 -/

/-- C1 (code bug).  The spec says `validate(doc)` never throws, for any
object input, "including non-string or unhashable 'type' values".  But the
membership test `stype not in VALID_SEGMENT_TYPES` hashes `stype`, so the
JSON-reachable document `{"title": "T", "segments": [{"type": []}]}` makes
the Python function raise `TypeError: unhashable type: 'list'` instead of
returning a violation list. -/
theorem c1_unhashable_type_raises :
    pyValidateChapterJson
      (.obj [("title", .str "T"), ("segments", .arr [.obj [("type", .arr [])]])]) =
      .error "unhashable type: 'list'" := rfl

/-! ## Claim C3 -/

/-- A `timedelta`'s `.days` field is strictly below 7 exactly when the
delta is strictly below 7 days. -/
theorem fdiv_day_lt_seven (d : Int) : Int.fdiv d 86400 < 7 ↔ d < 7 * 86400 := by
  rw [Int.fdiv_eq_ediv _ (by norm_num)]
  omega

/-- C3 (confirmed).  An entry is fresh iff `now - lastReadAt` is
strictly less than 7 days; an entry 7 days + 1 second old is stale, one
6 days 23 h 59 min old is fresh, and an unparseable timestamp is never
fresh. -/
theorem c3_cache_freshness :
    (∀ t now : Int, entryIsFresh (some t) now = true ↔ now - t < 7 * 86400) ∧
    (∀ now : Int, entryIsFresh none now = false) ∧
    (∀ now : Int, entryIsFresh (some (now - (7 * 86400 + 1))) now = false) ∧
    (∀ now : Int, entryIsFresh (some (now - (6 * 86400 + 23 * 3600 + 59 * 60))) now = true) := by
  refine ⟨fun t now => ?_, fun _ => rfl, fun now => ?_, fun now => ?_⟩
  · simp only [entryIsFresh, decide_eq_true_eq]
    exact fdiv_day_lt_seven _
  · simp only [entryIsFresh, decide_eq_false_iff_not, fdiv_day_lt_seven]
    omega
  · simp only [entryIsFresh, decide_eq_true_eq, fdiv_day_lt_seven]
    omega

/-! ## Claim C4 -/

/-- C4 (confirmed).  The example document validates with zero
violations and renders to `"— Hello — she said"`. -/
theorem c4_example_roundtrip :
    pyValidateChapterJson
      (.obj [("title", .str "Ch1"),
             ("segments", .arr [.obj [("type", .str "dialogue"),
                                      ("text", .str "Hello"),
                                      ("narrative", .str "she said")]])]) = .ok [] ∧
    segmentsToMarkup [.obj [("type", .str "dialogue"), ("text", .str "Hello"),
                            ("narrative", .str "she said")]] =
      "— Hello — she said" :=
  ⟨rfl, rfl⟩

/-! ## Claim C7 -/

/-- C7 (confirmed).  A `scene_break` segment yields one violation per
illegal field present, whatever the field values are: both fields give the
two violations in order, and the spec's example document yields exactly
the single violation naming the illegal `text` field. -/
theorem c7_scene_break_violations :
    (∀ tv nv : Option JVal,
      pyValidateChapterJson (sceneDoc tv nv) =
        .ok ((if tv.isSome then
                ["segments[0]: 'scene_break' must not have a 'text' field"] else []) ++
             (if nv.isSome then
                ["segments[0]: 'scene_break' does not support 'narrative' field"] else []))) ∧
    pyValidateChapterJson
      (.obj [("title", .str "Ch1"),
             ("segments", .arr [.obj [("type", .str "scene_break"), ("text", .str "x")]])]) =
      .ok ["segments[0]: 'scene_break' must not have a 'text' field"] := by
  refine ⟨fun tv nv => ?_, rfl⟩
  rcases tv with _ | v
  · rcases nv with _ | w <;> rfl
  · rcases v <;> rcases nv with _ | w <;> rfl

/-! ## Claim C10 -/

/-- The claim's formula: the largest order value among the chapters
(`-1` standing in for missing or non-integer `orderIndex`). -/
def maxOrderValue (c : Chapter) (rest : List Chapter) : Int :=
  rest.foldl (fun a ch => max a (orderValue ch)) (orderValue c)

/-- Python `max(ch_list, key=_order_value)` realises the maximal key. -/
theorem orderValue_pyMaxByOrderValue (rest : List Chapter) (c : Chapter) :
    orderValue (pyMaxByOrderValue c rest) = maxOrderValue c rest := by
  induction rest generalizing c with
  | nil => rfl
  | cons x xs ih =>
    show orderValue (pyMaxByOrderValue (if orderValue c < orderValue x then x else c) xs) =
      maxOrderValue c (x :: xs)
    rw [ih]
    have hseed : orderValue (if orderValue c < orderValue x then x else c) =
        max (orderValue c) (orderValue x) := by
      by_cases h : orderValue c < orderValue x
      · rw [if_pos h, max_eq_right h.le]
      · rw [if_neg h, max_eq_left (not_lt.mp h)]
    unfold maxOrderValue
    rw [List.foldl_cons, hseed]

/-- The seed of a `foldl max` is a lower bound of the result. -/
theorem le_foldl_max (xs : List Chapter) (a : Int) :
    a ≤ xs.foldl (fun b ch => max b (orderValue ch)) a := by
  induction xs generalizing a with
  | nil => exact le_refl a
  | cons x xs ih => exact le_trans (le_max_left _ _) (ih _)

/-- Every member's order value is bounded by the `foldl max`. -/
theorem mem_le_foldl_max (xs : List Chapter) (ch : Chapter) :
    ch ∈ xs → ∀ a : Int, orderValue ch ≤ xs.foldl (fun b ch => max b (orderValue ch)) a := by
  induction xs with
  | nil => intro hm; cases hm
  | cons x xs ih =>
    intro hm a
    rcases List.mem_cons.mp hm with h | h
    · subst h
      exact le_trans (le_max_right _ _) (le_foldl_max _ _)
    · exact ih h _

/-- C10 (confirmed).  The `orderIndex` assigned when adding a chapter
is `0` for an empty chapter list, else `max(largest order value, count-1)
+ 1` (missing or non-integer `orderIndex` counting as `-1`), which is
strictly greater than every existing chapter's order value. -/
theorem c10_order_index (chs : List Chapter) :
    (chs = [] → newOrderIndex chs = 0) ∧
    (∀ c rest, chs = c :: rest →
      newOrderIndex chs = max (maxOrderValue c rest) ((chs.length : Int) - 1) + 1 ∧
      ∀ ch ∈ chs, orderValue ch < newOrderIndex chs) := by
  refine ⟨fun h => by subst h; rfl, fun c rest h => ?_⟩
  subst h
  have hmax : newOrderIndex (c :: rest) =
      max (maxOrderValue c rest) (((c :: rest).length : Int) - 1) + 1 := by
    rw [show newOrderIndex (c :: rest) =
          max (orderValue (pyMaxByOrderValue c rest)) (((c :: rest).length : Int) - 1) + 1
        from rfl,
        orderValue_pyMaxByOrderValue]
  refine ⟨hmax, fun ch hm => ?_⟩
  rw [hmax]
  have h1 : orderValue ch ≤ maxOrderValue c rest := by
    rcases List.mem_cons.mp hm with h | h
    · subst h
      exact le_foldl_max rest (orderValue ch)
    · exact mem_le_foldl_max rest ch h (orderValue c)
  have h2 : maxOrderValue c rest ≤ max (maxOrderValue c rest) (((c :: rest).length : Int) - 1) :=
    le_max_left _ _
  omega

/-- Witness for C10 at a concrete chapter list: one integer `orderIndex`
`5` and one missing, giving `max(max(5, -1), 1) + 1 = 6`. -/
theorem c10_order_index_witness :
    newOrderIndex [⟨"a", "A", "", JVal.num 5⟩, ⟨"b", "B", "", JVal.null⟩] = 6 ∧
    orderValue ⟨"a", "A", "", JVal.num 5⟩ <
      newOrderIndex [⟨"a", "A", "", JVal.num 5⟩, ⟨"b", "B", "", JVal.null⟩] := by
  have h := (c10_order_index [⟨"a", "A", "", JVal.num 5⟩, ⟨"b", "B", "", JVal.null⟩]).2
    ⟨"a", "A", "", JVal.num 5⟩ [⟨"b", "B", "", JVal.null⟩] rfl
  exact ⟨h.1.trans (by decide), h.2 _ (by simp)⟩

/-! ## Claim C5 -/

/-- Stripping never lengthens a character list. -/
theorem length_stripChars_le (l : List Char) : (stripChars l).length ≤ l.length := by
  unfold stripChars
  rw [List.length_reverse]
  calc ((l.dropWhile Char.isWhitespace).reverse.dropWhile Char.isWhitespace).length
      ≤ (l.dropWhile Char.isWhitespace).reverse.length :=
        (List.dropWhile_sublist _).length_le
    _ = (l.dropWhile Char.isWhitespace).length := List.length_reverse _
    _ ≤ l.length := (List.dropWhile_sublist _).length_le

/-- Stripping only removes characters. -/
theorem mem_of_mem_stripChars {a : Char} {l : List Char} (h : a ∈ stripChars l) : a ∈ l := by
  unfold stripChars at h
  rw [List.mem_reverse] at h
  have h1 := (List.dropWhile_sublist (l := (l.dropWhile Char.isWhitespace).reverse)
    Char.isWhitespace).subset h
  rw [List.mem_reverse] at h1
  exact (List.dropWhile_sublist _).subset h1

/-- Collapsing newlines leaves no `'\n'` behind. -/
theorem newline_not_mem_collapse (s : String) : '\n' ∉ (pyCollapseNewlines s).data := by
  intro h
  rw [show (pyCollapseNewlines s).data = s.data.map (fun c => if c = '\n' then ' ' else c)
      from rfl, List.mem_map] at h
  obtain ⟨c, _, hc⟩ := h
  by_cases hcn : c = '\n'
  · rw [if_pos hcn] at hc
    exact absurd hc (by decide)
  · rw [if_neg hcn] at hc
    exact hcn hc

/-- C5 counterexample.  The claim bounds the stored preview text by 200
characters, but a 201-character chapter content stores a 203-character
preview (200 characters plus the three-character `"..."` suffix). -/
theorem c5_counterexample :
    pyLen (mkPreview (String.mk (List.replicate 201 'a'))) = 203 ∧
    ¬ pyLen (mkPreview (String.mk (List.replicate 201 'a'))) ≤ 200 := by
  constructor <;> decide

/-- C5 (corrected).  The stored preview is the trimmed,
newline-collapsed first-200-character prefix of the content, with `"..."`
appended exactly when the content exceeds 200 characters; hence it is at
most 200 characters long when not truncated and at most 203 in total, and
never contains a newline. -/
theorem c5_preview_shape (content : String) :
    pyLen (mkPreview content) ≤ 203 ∧
    (pyLen content ≤ 200 →
      mkPreview content = pyStrip (pyCollapseNewlines content) ∧
      pyLen (mkPreview content) ≤ 200) ∧
    (pyLen content > 200 →
      mkPreview content = pyStrip (pyCollapseNewlines (pyTakeChars 200 content)) ++ "...") ∧
    '\n' ∉ (mkPreview content).data := by
  have hcorelen : pyLen (pyStrip (pyCollapseNewlines (pyTakeChars 200 content))) ≤ 200 := by
    show (stripChars (pyCollapseNewlines (pyTakeChars 200 content)).data).length ≤ 200
    calc (stripChars (pyCollapseNewlines (pyTakeChars 200 content)).data).length
        ≤ (pyCollapseNewlines (pyTakeChars 200 content)).data.length :=
          length_stripChars_le _
      _ = (content.data.take 200).length := by
          rw [show (pyCollapseNewlines (pyTakeChars 200 content)).data =
            (content.data.take 200).map (fun c => if c = '\n' then ' ' else c) from rfl]
          exact List.length_map _ _
      _ ≤ 200 := by
          rw [List.length_take]
          exact min_le_left _ _
  have hcorenl : '\n' ∉ (pyStrip (pyCollapseNewlines (pyTakeChars 200 content))).data := by
    intro h
    exact newline_not_mem_collapse (pyTakeChars 200 content) (mem_of_mem_stripChars h)
  by_cases h : pyLen content > 200
  · have hmk : mkPreview content =
        pyStrip (pyCollapseNewlines (pyTakeChars 200 content)) ++ "..." := by
      show (if pyLen content > 200 then _ else _) = _
      rw [if_pos h]
    refine ⟨?_, fun hle => absurd h (by omega), fun _ => hmk, ?_⟩
    · rw [hmk]
      have := String.length_append (pyStrip (pyCollapseNewlines (pyTakeChars 200 content))) "..."
      show (pyStrip (pyCollapseNewlines (pyTakeChars 200 content)) ++ "...").length ≤ 203
      rw [this]
      have h3 : ("..." : String).length = 3 := rfl
      have h4 : (pyStrip (pyCollapseNewlines (pyTakeChars 200 content))).length ≤ 200 := hcorelen
      omega
    · rw [hmk, String.data_append]
      intro hmem
      rcases List.mem_append.mp hmem with hmem | hmem
      · exact hcorenl hmem
      · exact absurd hmem (by decide)
  · have htake : pyTakeChars 200 content = content := by
      show String.mk (content.data.take 200) = content
      rw [List.take_of_length_le (by unfold pyLen at h; omega)]
    have hmk : mkPreview content = pyStrip (pyCollapseNewlines content) := by
      show (if pyLen content > 200 then _ else _) = _
      rw [if_neg h, htake]
    have hlen : pyLen (mkPreview content) ≤ 200 := by
      rw [hmk, ← htake]
      exact hcorelen
    refine ⟨by omega, fun _ => ⟨hmk, hlen⟩, fun hgt => absurd hgt h, ?_⟩
    rw [hmk, ← htake]
    exact hcorenl

/-- Witness for C5 at a concrete content with a newline. -/
theorem c5_preview_shape_witness :
    pyLen (mkPreview "a\nb") ≤ 203 ∧
    mkPreview "a\nb" = pyStrip (pyCollapseNewlines "a\nb") := by
  refine ⟨(c5_preview_shape "a\nb").1, ((c5_preview_shape "a\nb").2.1 (by decide)).1⟩

/-! ## Claims C2 and C9: concrete resolver environments -/

/-- A cache file text whose chapter line carries the stale id `X123` and
the title hint `Intro`. -/
def exCacheText : String :=
  "# Book Summary: T\n**Book ID**: B1\n## Chapters\n- **Intro** (id: X123): hello"

/-- A cache directory with the single book `B1`. -/
def exCache : List (String × String) := [("B1", exCacheText)]

/-- Metadata of the remote book `B1`. -/
def exBook : Book := ⟨"T", "A", "P", "", ""⟩

/-- The remote service knows only book `B1`. -/
def exFetchBook : String → Option Book := fun s => if s = "B1" then some exBook else none

/-- The refreshed chapter list: `Intro` now has id `Y9`. -/
def exChapters : List Chapter := [⟨"Y9", "Intro", "body", JVal.null⟩]

/-- Chapter fetch returning `exChapters` for `B1`. -/
def exFetchChapters : String → List Chapter := fun s => if s = "B1" then exChapters else []

/-- Chapter fetch returning an empty refreshed list. -/
def exFetchNoChapters : String → List Chapter := fun _ => []

/-- A cache file text containing the stale id but no `- **` chapter line,
so no title hint can be recovered. -/
def exCacheTextNoHint : String := "stale chapter X123 mentioned loosely"

/-- A cache directory whose matching entry yields no hint. -/
def exCacheNoHint : List (String × String) := [("B1", exCacheTextNoHint)]

/-! ## Claim C2 -/

/-- C2 counterexample.  All of the claim's premises hold — the cache
references `X123`, the hint `Intro` is recovered, the book still exists —
and no chapter of the (empty) refreshed list matches the hint; yet the
code terminates in the distinct `noChapters` error state, not the
manual-fallback (`ambiguous`) state the claim requires. -/
theorem c2_counterexample :
    scanCache exCache "X123" = some ("B1", exCacheText) ∧
    extractHint exCacheText "X123" = some "Intro" ∧
    exFetchBook "B1" = some exBook ∧
    (resolveStaleId exCache "X123" exFetchBook exFetchNoChapters "NOW").outcome =
      ResolveOutcome.noChapters ∧
    (resolveStaleId exCache "X123" exFetchBook exFetchNoChapters "NOW").outcome ≠
      ResolveOutcome.ambiguous [] :=
  ⟨rfl, rfl, rfl, rfl, fun h => ResolveOutcome.noConfusion
    ((show ResolveOutcome.noChapters =
        (resolveStaleId exCache "X123" exFetchBook exFetchNoChapters "NOW").outcome
      from rfl).trans h)⟩

/-- C2 (corrected).  Once the scan locates the stale id in a cached
book that still exists remotely: a hint whose trimmed lower-cased title
matches some refreshed chapter resolves to that chapter's new id; a
non-empty refreshed list with no match (or no recovered hint) ends in the
manual-fallback (`ambiguous`) state with no identifier; an *empty*
refreshed list, however, ends in the separate `noChapters` error state
rather than the manual fallback. -/
theorem c2_stale_resolution
    (cache : List (String × String)) (cid stem content hint now : String)
    (book : Book) (fB : String → Option Book) (fC : String → List Chapter)
    (hscan : scanCache cache cid = some (stem, content))
    (hbook : fB stem = some book) :
    (extractHint content cid = some hint → hint ≠ "" →
      ∀ ch, (fC stem).find? (titleMatches hint) = some ch →
        (resolveStaleId cache cid fB fC now).outcome = ResolveOutcome.found ch.id ch) ∧
    (fC stem ≠ [] → extractHint content cid = some hint → hint ≠ "" →
      (fC stem).find? (titleMatches hint) = none →
      (resolveStaleId cache cid fB fC now).outcome = ResolveOutcome.ambiguous (fC stem)) ∧
    (fC stem ≠ [] → extractHint content cid = none →
      (resolveStaleId cache cid fB fC now).outcome = ResolveOutcome.ambiguous (fC stem)) ∧
    (fC stem = [] →
      (resolveStaleId cache cid fB fC now).outcome = ResolveOutcome.noChapters) := by
  refine ⟨?_, ?_, ?_, ?_⟩
  · intro hh hne ch hfind
    have hnonempty : (fC stem).isEmpty = false := by
      rcases hfc : fC stem with _ | ⟨a, l⟩
      · rw [hfc] at hfind
        cases hfind
      · rfl
    simp only [resolveStaleId, hscan, hbook, hnonempty, Bool.false_eq_true, if_false,
      hh, ne_eq, hne, not_false_eq_true, if_true, hfind]
  · intro hnil hh hne hfind
    have hnonempty : (fC stem).isEmpty = false := by
      rcases hfc : fC stem with _ | ⟨a, l⟩
      · exact absurd hfc hnil
      · rfl
    simp only [resolveStaleId, hscan, hbook, hnonempty, Bool.false_eq_true, if_false,
      hh, ne_eq, hne, not_false_eq_true, if_true, hfind]
  · intro hnil hh
    have hnonempty : (fC stem).isEmpty = false := by
      rcases hfc : fC stem with _ | ⟨a, l⟩
      · exact absurd hfc hnil
      · rfl
    simp only [resolveStaleId, hscan, hbook, hnonempty, Bool.false_eq_true, if_false, hh]
  · intro hnil
    have hempty : (fC stem).isEmpty = true := by rw [hnil]; rfl
    simp only [resolveStaleId, hscan, hbook, hempty, if_true]

/-- Witness for C2: resolving `X123` against the refreshed list containing
`Intro` with new id `Y9` succeeds with `Y9`. -/
theorem c2_stale_resolution_witness :
    (resolveStaleId exCache "X123" exFetchBook exFetchChapters "NOW").outcome =
      ResolveOutcome.found "Y9" ⟨"Y9", "Intro", "body", JVal.null⟩ :=
  (c2_stale_resolution exCache "X123" "B1" exCacheText "Intro" "NOW" exBook
    exFetchBook exFetchChapters rfl rfl).1 rfl (by decide) _ rfl

/-! ## Claim C9 -/

/-- C9 (confirmed).  Whenever resolution ends in the manual-fallback
(`ambiguous`) state, the presented chapters are exactly the freshly
fetched list, the stale book's old cache file was deleted, and the cache
entry was rebuilt from the fresh book metadata and chapter list before the
command terminates. -/
theorem c9_ambiguous_rebuilds
    (cache : List (String × String)) (cid now stem content : String) (book : Book)
    (fB : String → Option Book) (fC : String → List Chapter) (chs : List Chapter)
    (hscan : scanCache cache cid = some (stem, content))
    (hbook : fB stem = some book)
    (hout : (resolveStaleId cache cid fB fC now).outcome = ResolveOutcome.ambiguous chs) :
    chs = fC stem ∧
    (resolveStaleId cache cid fB fC now).deleted = some stem ∧
    (resolveStaleId cache cid fB fC now).written =
      some (stem, buildBookCache stem book (fC stem) now) := by
  simp only [resolveStaleId, hscan, hbook] at hout ⊢
  by_cases he : (fC stem).isEmpty
  · rw [if_pos he] at hout
    exact absurd hout (by simp)
  · rw [if_neg he] at hout ⊢
    rcases hm : (match extractHint content cid with
      | some h => if h ≠ "" then (fC stem).find? (titleMatches h) else none
      | none => none) with _ | ch
    · rw [hm] at hout ⊢
      have := (ResolveOutcome.ambiguous.injEq _ _).mp hout
      exact ⟨this.symm, rfl, rfl⟩
    · rw [hm] at hout
      exact absurd hout (by simp)

/-- Witness for C9: a matching cache entry without a usable hint reaches
the ambiguous state, and the cache is deleted and rebuilt along the way. -/
theorem c9_ambiguous_rebuilds_witness :
    exChapters = exFetchChapters "B1" ∧
    (resolveStaleId exCacheNoHint "X123" exFetchBook exFetchChapters "NOW").deleted =
      some "B1" ∧
    (resolveStaleId exCacheNoHint "X123" exFetchBook exFetchChapters "NOW").written =
      some ("B1", buildBookCache "B1" exBook (exFetchChapters "B1") "NOW") :=
  c9_ambiguous_rebuilds exCacheNoHint "X123" "NOW" "B1" exCacheTextNoHint exBook
    exFetchBook exFetchChapters exChapters rfl rfl rfl

/-! ## Claims C6 and C8: single-segment documents with a known kind -/

/-- Validation of `kindDoc k t` for a known kind reduces to the
per-segment checks plus the title-duplication check. -/
theorem validate_kindDoc (k t : String) (hk : VALID_SEGMENT_TYPES.contains k = true) :
    pyValidateChapterJson (kindDoc k t) =
      Except.ok (checkKnownSegment "segments[0]" k [("type", JVal.str k), ("text", JVal.str t)] ++
        titleDupErrs (.str "T") [.obj [("type", JVal.str k), ("text", JVal.str t)]]) := by
  have h1 : validateSegment 0 (.obj [("type", JVal.str k), ("text", JVal.str t)]) =
      .ok (checkKnownSegment "segments[0]" k [("type", JVal.str k), ("text", JVal.str t)]) := by
    show (if VALID_SEGMENT_TYPES.contains k = true then
        Except.ok (checkKnownSegment "segments[0]" k [("type", JVal.str k), ("text", JVal.str t)])
      else Except.ok [unknownTypeMsg "segments[0]" (.str k)]) = _
    rw [hk, if_pos rfl]
  have h2 : validateSegments 0 [JVal.obj [("type", JVal.str k), ("text", JVal.str t)]] =
      .ok (checkKnownSegment "segments[0]" k [("type", JVal.str k), ("text", JVal.str t)] ++ []) := by
    show (match validateSegment 0 (.obj [("type", JVal.str k), ("text", JVal.str t)]) with
      | .error e => Except.error e
      | .ok errs => Except.ok (errs ++ [])) = _
    rw [h1]
  show (match validateSegments 0 [JVal.obj [("type", JVal.str k), ("text", JVal.str t)]] with
    | .error e => Except.error e
    | .ok segErrs => Except.ok (segErrs ++
        titleDupErrs (.str "T") [.obj [("type", JVal.str k), ("text", JVal.str t)]])) = _
  rw [h2, List.append_nil]

/-- The title-duplication check adds at most its one fixed message. -/
theorem titleDup_eq_nil_or_msg (tv : JVal) (segs : List JVal) :
    titleDupErrs tv segs = [] ∨ titleDupErrs tv segs = [titleDupMsg] := by
  unfold titleDupErrs
  split
  · split
    · dsimp only
      split
      · split
        · exact Or.inr rfl
        · exact Or.inl rfl
      · exact Or.inl rfl
    · exact Or.inl rfl
  · exact Or.inl rfl

/-! ## Claim C6 -/

/-- Is `m` one of the two dialogue-dash violation messages? -/
def isDashViolation (m : String) : Bool :=
  m == dashMsg "segments[0]" "—" || m == dashMsg "segments[0]" "-"

/-- C6 counterexample.  The claim keys the dash check on the *trimmed*
text: `" - Hello"` trims to a string beginning with `"- "`, so the claim
demands a dialogue hint — but the code checks the untrimmed text and
reports no violation at all. -/
theorem c6_counterexample :
    pyStartsWith (pyStrip " - Hello") "- " = true ∧
    pyValidateChapterJson (kindDoc "text" " - Hello") = Except.ok [] :=
  ⟨by decide, rfl⟩

/-- The per-segment checks of a `text`-kind segment carrying only a `text`
string, written out. -/
theorem checkKnown_text_shape (t : String) :
    checkKnownSegment "segments[0]" "text" [("type", JVal.str "text"), ("text", JVal.str t)] =
      (if pyStrip t = "" then ["segments[0]: 'text' must be a non-empty string"] else []) ++
      (if t ≠ "" then
        (match findRawTag (pyLower t) with
         | some tg => [rawTagMsg "segments[0]" tg]
         | none => []) ++
        (if pyStartsWith t "— " || pyStartsWith t "- " then
          [dashMsg "segments[0]" (if pyStartsWith t "—" then "—" else "-")]
        else [])
      else []) := by
  have hnarr : jHas [("type", JVal.str "text"), ("text", JVal.str t)] "narrative" = false := rfl
  show (if ("text" : String) = "scene_break" then _ else _) = _
  rw [if_neg (by decide)]
  dsimp only
  rw [hnarr, if_neg (by exact Bool.false_ne_true), List.append_nil]
  rfl

/-- C6 (corrected).  For a `text`-kind segment, the dialogue-dash
violation is produced exactly when the *untrimmed* text begins with an
em-dash followed by a space or a hyphen followed by a space (the source
tests `text.startswith`, not the trimmed text). -/
theorem c6_dash_hint (t : String) :
    ∃ errs, pyValidateChapterJson (kindDoc "text" t) = Except.ok errs ∧
      errs.any isDashViolation = (pyStartsWith t "— " || pyStartsWith t "- ") := by
  refine ⟨_, validate_kindDoc "text" t rfl, ?_⟩
  rw [List.any_append]
  have hdup : (titleDupErrs (.str "T")
      [.obj [("type", JVal.str "text"), ("text", JVal.str t)]]).any isDashViolation = false := rfl
  rw [hdup, Bool.or_false, checkKnown_text_shape]
  by_cases ht : t = ""
  · subst ht
    decide
  · rw [if_pos ht, List.any_append, List.any_append]
    have h1 : (if pyStrip t = "" then
        ["segments[0]: 'text' must be a non-empty string"] else []).any isDashViolation = false := by
      by_cases hs : pyStrip t = ""
      · rw [if_pos hs]; decide
      · rw [if_neg hs]; rfl
    have h2 : (match findRawTag (pyLower t) with
        | some tg => [rawTagMsg "segments[0]" tg]
        | none => []).any isDashViolation = false := by
      rcases hf : findRawTag (pyLower t) with _ | tg
      · rfl
      · have hmem : tg ∈ RAW_TAGS := List.mem_of_find?_eq_some hf
        simp only [List.any_cons, List.any_nil, Bool.or_false]
        fin_cases hmem <;> decide
    have h3 : (if pyStartsWith t "— " || pyStartsWith t "- " then
        [dashMsg "segments[0]" (if pyStartsWith t "—" then "—" else "-")]
        else []).any isDashViolation = (pyStartsWith t "— " || pyStartsWith t "- ") := by
      by_cases hd : (pyStartsWith t "— " || pyStartsWith t "- ") = true
      · rw [if_pos hd, hd]
        simp only [List.any_cons, List.any_nil, Bool.or_false]
        by_cases hsel : pyStartsWith t "—" = true
        · rw [if_pos hsel]; decide
        · rw [if_neg hsel]; decide
      · rw [Bool.not_eq_true] at hd
        simp [hd]
    rw [h1, h2, h3, Bool.false_or, Bool.false_or]

/-! ## Claim C8 -/

/-- Is `m` one of the six raw-tag violation messages of the first
segment? -/
def isRawTagViolation (m : String) : Bool :=
  RAW_TAGS.any (fun tg => m == rawTagMsg "segments[0]" tg)

/-- The per-segment checks of a known non-`scene_break` kind carrying only
a `text` string, written out. -/
theorem checkKnown_kind_shape (k t : String) (hk : k ≠ "scene_break") :
    checkKnownSegment "segments[0]" k [("type", JVal.str k), ("text", JVal.str t)] =
      (if pyStrip t = "" then ["segments[0]: 'text' must be a non-empty string"] else []) ++
      (if t ≠ "" then
        (match findRawTag (pyLower t) with
         | some tg => [rawTagMsg "segments[0]" tg]
         | none => []) ++
        (if decide (k = "text") && (pyStartsWith t "— " || pyStartsWith t "- ") then
          [dashMsg "segments[0]" (if pyStartsWith t "—" then "—" else "-")]
        else [])
      else []) := by
  have hnarr : jHas [("type", JVal.str k), ("text", JVal.str t)] "narrative" = false := rfl
  show (if k = "scene_break" then _ else _) = _
  rw [if_neg hk]
  dsimp only
  rw [hnarr, if_neg (by exact Bool.false_ne_true), List.append_nil]
  rfl

/-- C8 (confirmed).  For a known-kind segment, validation produces at
most one raw-tag violation; when the text contains a raw tag
(case-insensitively, open or close form) and the kind is not
`scene_break`, a raw-tag violation is produced whose message recommends
`tagToType` of the tag — `thought` maps to `monolog` and every other tag
to the identically-named type; and the spec's example text yields exactly
the violation recommending `monolog`. -/
theorem c8_raw_tag_hint :
    (∀ k t : String, k ∈ VALID_SEGMENT_TYPES →
      ∀ errs, pyValidateChapterJson (kindDoc k t) = Except.ok errs →
        errs.countP isRawTagViolation ≤ 1 ∧
        (k ≠ "scene_break" → (∃ tg ∈ RAW_TAGS, hasRawTag (pyLower t) tg = true) →
          ∃ tg ∈ RAW_TAGS, hasRawTag (pyLower t) tg = true ∧
            rawTagMsg "segments[0]" tg ∈ errs)) ∧
    tagToType "thought" = "monolog" ∧
    (∀ tg ∈ RAW_TAGS, tg ≠ "thought" → tagToType tg = tg) ∧
    pyValidateChapterJson (kindDoc "text" "[thought]I wonder[/thought]") =
      Except.ok [rawTagMsg "segments[0]" "thought"] := by
  refine ⟨?_, rfl, by decide, rfl⟩
  intro k t hk errs herrs
  have hkc : VALID_SEGMENT_TYPES.contains k = true := List.elem_eq_true_of_mem hk
  have hErrsEq : errs =
      checkKnownSegment "segments[0]" k [("type", JVal.str k), ("text", JVal.str t)] ++
      titleDupErrs (.str "T") [.obj [("type", JVal.str k), ("text", JVal.str t)]] := by
    have h := (validate_kindDoc k t hkc).symm.trans herrs
    injection h with h
    exact h.symm
  subst hErrsEq
  have hdup : (titleDupErrs (.str "T")
      [.obj [("type", JVal.str k), ("text", JVal.str t)]]).countP isRawTagViolation = 0 := by
    rcases titleDup_eq_nil_or_msg (.str "T")
      [.obj [("type", JVal.str k), ("text", JVal.str t)]] with h | h <;> rw [h]
    · rfl
    · decide
  constructor
  · rw [List.countP_append, hdup]
    by_cases hsb : k = "scene_break"
    · subst hsb
      have hc : checkKnownSegment "segments[0]" "scene_break"
          [("type", JVal.str "scene_break"), ("text", JVal.str t)] =
          ["segments[0]: 'scene_break' must not have a 'text' field"] := rfl
      rw [hc]
      decide
    · rw [checkKnown_kind_shape k t hsb, List.countP_append]
      have hA : (if pyStrip t = "" then
          ["segments[0]: 'text' must be a non-empty string"] else []).countP
            isRawTagViolation = 0 := by
        by_cases hs : pyStrip t = ""
        · rw [if_pos hs]; decide
        · rw [if_neg hs]; rfl
      have hB : (if t ≠ "" then
          (match findRawTag (pyLower t) with
           | some tg => [rawTagMsg "segments[0]" tg]
           | none => []) ++
          (if decide (k = "text") && (pyStartsWith t "— " || pyStartsWith t "- ") then
            [dashMsg "segments[0]" (if pyStartsWith t "—" then "—" else "-")]
          else [])
        else []).countP isRawTagViolation ≤ 1 := by
        by_cases ht : t = ""
        · rw [if_neg (fun hne => hne ht)]
          decide
        · rw [if_pos ht, List.countP_append]
          have hraw : (match findRawTag (pyLower t) with
              | some tg => [rawTagMsg "segments[0]" tg]
              | none => []).countP isRawTagViolation ≤ 1 := by
            rcases findRawTag (pyLower t) with _ | tg
            · decide
            · have h := List.countP_le_length (p := isRawTagViolation)
                (l := [rawTagMsg "segments[0]" tg])
              simpa using h
          have hdash : (if decide (k = "text") &&
              (pyStartsWith t "— " || pyStartsWith t "- ") then
              [dashMsg "segments[0]" (if pyStartsWith t "—" then "—" else "-")]
            else []).countP isRawTagViolation = 0 := by
            by_cases hc : (decide (k = "text") &&
                (pyStartsWith t "— " || pyStartsWith t "- ")) = true
            · rw [if_pos hc]
              by_cases hsel : pyStartsWith t "—" = true
              · rw [if_pos hsel]; decide
              · rw [if_neg hsel]; decide
            · rw [if_neg hc]; rfl
          omega
      omega
  · intro hsb hex
    have ht : t ≠ "" := by
      rintro rfl
      obtain ⟨tg0, hm, hp⟩ := hex
      rw [show pyLower "" = "" from rfl] at hp
      fin_cases hm <;> exact absurd hp (by decide)
    rcases htg : findRawTag (pyLower t) with _ | tg
    · obtain ⟨tg0, hm, hp⟩ := hex
      have := List.find?_eq_none.mp htg tg0 hm
      exact absurd hp (by simpa using this)
    · refine ⟨tg, List.mem_of_find?_eq_some htg, List.find?_some htg, ?_⟩
      rw [checkKnown_kind_shape k t hsb, if_pos ht, htg]
      simp [List.mem_append]

/-- Witness for C8 at the spec's example text inside a `text`-kind
segment. -/
theorem c8_raw_tag_hint_witness :
    ([rawTagMsg "segments[0]" "thought"] : List String).countP isRawTagViolation ≤ 1 ∧
    pyValidateChapterJson (kindDoc "text" "[thought]I wonder[/thought]") =
      Except.ok [rawTagMsg "segments[0]" "thought"] := by
  have h := (c8_raw_tag_hint.1 "text" "[thought]I wonder[/thought]" (by decide)
    [rawTagMsg "segments[0]" "thought"] rfl).1
  exact ⟨h, rfl⟩

end Moltpad
